import Mathlib

/-
Verification of the support-agent orchestration pipeline (src/main.py).

The deterministic parts are translated directly from the source: the session
context record (UserContext), the three tool artifacts and their enablement
lambdas, the guardrail denylist and tripwire wiring
(NoOffensiveLanguageGuardrail), the out-of-scope literal, and the try/except
structure of main. The composition performed by the external agents runtime
and the reasoning oracle (handler tool selection, routing, request lifecycle)
is not present in the source tree; those definitions are modelled from the
specification and are parameterised over the oracle functions.
-/

set_option maxRecDepth 20000

namespace SupportAgent

/-- Per-request session context, translated from class UserContext. -/
structure UserContext where
  name : String
  is_premium_user : Bool
  issue_type : String
  deriving DecidableEq

/-- Output schema of the guardrail oracle, translated from class OffensiveOutput. -/
structure OffensiveOutput where
  contains_offensive : Bool
  deriving DecidableEq

/-- Result of the output-guardrail function, mirroring GuardrailFunctionOutput
with its output_info payload and tripwire_triggered flag. -/
structure GuardrailFunctionOutput where
  output_info : OffensiveOutput
  tripwire_triggered : Bool
  deriving DecidableEq

/-- Body of the refund artifact after the templated greeting, translated from
the string literals of the refund tool. -/
def refund_rest : String := ",\n\nWe\x27ve reviewed your account and your refund has been **successfully initiated** ✅. You can expect the amount to be credited back to your original payment method within **3-5 business days**. If you have any further questions, feel free to reach out — we\x27re here to help!"

/-- The refund tool body: templates the subject name into a pre-authored
message, translated from the refund function. -/
def refund (ctx : UserContext) : String :=
  "Hello " ++ ctx.name ++ refund_rest

/-- Body of the restart artifact after the templated greeting, translated from
the string literals of the restart tool. -/
def restart_rest : String := ",\n\nYour service restart request has been received and is now **in progress** 🔄. Please allow a few moments for the changes to take effect. You will receive a confirmation once everything is back online."

/-- The restart tool body, translated from the restart function. -/
def restart_service (ctx : UserContext) : String :=
  "Hi " ++ ctx.name ++ restart_rest

/-- Body of the general-info artifact after the templated greeting, translated
from the string literals of the general-info tool. -/
def general_rest : String := ",\n\nHere\x27s some quick info about our services:\n- **24/7 Customer Support** 🕑\n- **Fast & Secure Transactions** 🔐\n- **Premium Members** enjoy priority handling\n\nIf you\x27d like details about a specific service, let me know!"

/-- The general-info tool body, translated from the general-info function. -/
def general_info (ctx : UserContext) : String :=
  "Hello " ++ ctx.name ++ general_rest

/-- A named action with an enablement predicate over session context,
producing a text artifact (spec section 3, realised in the source as tool
objects carrying an attached enablement lambda). -/
structure Capability where
  id : String
  is_enabled : UserContext → Bool
  invoke : UserContext → String

/-- The refund capability: its enablement lambda reads is_premium_user,
translated from the line attaching the lambda to the refund tool. -/
def refund_cap : Capability :=
  ⟨"refund", fun ctx => ctx.is_premium_user, refund⟩

/-- The restart capability: its enablement lambda compares issue_type with
the string technical, translated from the line attaching the lambda to the
restart tool. -/
def restart_service_cap : Capability :=
  ⟨"restart_service", fun ctx => ctx.issue_type == "technical", restart_service⟩

/-- The general-info capability. The source attaches no enablement lambda to
this tool, so it is enabled for every context (the runtime default). -/
def general_info_cap : Capability :=
  ⟨"general_info", fun _ => true, general_info⟩

/-- Provenance tag of a candidate response: produced by a capability, by a
handler fallback, or the fixed out-of-scope literal. -/
inductive CandidateSource where
  | fromCapability (id : String)
  | handlerFallback
  | outOfScopeLiteral
  deriving DecidableEq

/-- A candidate response: its provenance and its text artifact. -/
structure CandidateResponse where
  source : CandidateSource
  text : String
  deriving DecidableEq

/-- Modelled from the spec: the deterministic fallback message a handler
returns when none of its capabilities is enabled for the current context.
The source leaves this text unspecified (design note: a policy choice), so a
fixed representative message is used. -/
def capability_unavailable_fallback : String :=
  "We\x27re sorry, this capability is not available for your account. Please contact support for further assistance."

/-- A specialised responder bound to a closed list of capabilities, with a
deterministic fallback. Capability lists are translated from the tools
argument of each agent in the source. -/
structure Handler where
  id : String
  capabilities : List Capability
  fallback : String

/-- Modelled from the spec: a handler selects a single capability whose
predicate is true for the context and returns that artifact unmodified; if
none is enabled it returns the deterministic fallback and never reroutes. -/
def Handler.respond (h : Handler) (ctx : UserContext) : CandidateResponse :=
  match h.capabilities.find? (fun c => c.is_enabled ctx) with
  | some c => ⟨CandidateSource.fromCapability c.id, c.invoke ctx⟩
  | none => ⟨CandidateSource.handlerFallback, h.fallback⟩

/-- The billing handler, translated from the agent named BillingAgent whose
tools list holds exactly the refund tool. -/
def billing_agent : Handler :=
  ⟨"BillingAgent", [refund_cap], capability_unavailable_fallback⟩

/-- The technical handler, translated from the agent named TechnicalAgent
whose tools list holds exactly the restart tool. -/
def technical_agent : Handler :=
  ⟨"TechnicalAgent", [restart_service_cap], capability_unavailable_fallback⟩

/-- The general handler, translated from the agent named GeneralAgent whose
tools list holds exactly the general-info tool. -/
def general_agent : Handler :=
  ⟨"GeneralAgent", [general_info_cap], capability_unavailable_fallback⟩

/-- The fixed routing taxonomy (spec section 6). -/
inductive Category where
  | billing
  | technical
  | general
  | out_of_scope
  deriving DecidableEq

/-- Modelled from the spec: the routing oracle output is mapped to exactly
one enum value; any label outside the taxonomy is out of scope. -/
def classify (label : String) : Category :=
  if label = "billing" then Category.billing
  else if label = "technical" then Category.technical
  else if label = "general" then Category.general
  else Category.out_of_scope

/-- The fixed literal returned for out-of-scope queries, translated from the
triage agent instructions. -/
def out_of_scope_text : String := "This query is out of scope."

/-- Result of dispatch: which handler was invoked, if any, and the candidate
response produced. -/
structure DispatchResult where
  handlerInvoked : Option String
  response : CandidateResponse
  deriving DecidableEq

/-- Modelled from the spec: dispatch is a pure lookup table from category to
handler; out of scope short-circuits to the fixed literal with no handler
invoked. -/
def dispatch (d : Category) (ctx : UserContext) : DispatchResult :=
  match d with
  | Category.billing => ⟨some billing_agent.id, billing_agent.respond ctx⟩
  | Category.technical => ⟨some technical_agent.id, technical_agent.respond ctx⟩
  | Category.general => ⟨some general_agent.id, general_agent.respond ctx⟩
  | Category.out_of_scope =>
      ⟨none, ⟨CandidateSource.outOfScopeLiteral, out_of_scope_text⟩⟩

/-- The output-guardrail function translated from the source: it runs the
guardrail agent on the candidate text alone and raises the tripwire exactly
when the returned schema flags offensive content. The context argument
mirrors the signature in the source, where it is forwarded to the sub-run
only as local state that never enters the oracle prompt. -/
def NoOffensiveLanguageGuardrail (oracle : String → OffensiveOutput)
    (_ctx : UserContext) (input : String) : GuardrailFunctionOutput :=
  let result := oracle input
  ⟨result, result.contains_offensive⟩

/-- Word-occurrence check over character lists. -/
def occursIn (w : List Char) : List Char → Bool
  | [] => w.isEmpty
  | c :: t => w.isPrefixOf (c :: t) || occursIn w t

/-- Substring check over strings. -/
def containsWord (text w : String) : Bool :=
  occursIn w.toList text.toList

/-- The denylist of the guardrail agent, translated from its instructions. -/
def offensive_words : List String := ["stupid", "idiot", "hate", "useless"]

/-- Denylist scan of a text, following the guardrail agent instructions. -/
def contains_offensive (text : String) : Bool :=
  offensive_words.any (containsWord text)

/-- The guardrail oracle as instructed in the source: a deterministic stub
returning the denylist scan verdict. -/
def guardrail_oracle (text : String) : OffensiveOutput :=
  ⟨contains_offensive text⟩

/-- Outcome observed by the caller (spec section 6). -/
inductive Outcome where
  | Released (text : String)
  | Blocked
  | Failed (kind : String)
  deriving DecidableEq

/-- Modelled from the spec: the orchestrator composes routing, dispatch and
the guardrail into one request lifecycle, parameterised over the routing
oracle and the guardrail oracle. A raised tripwire suppresses the candidate
entirely and yields the Blocked outcome. -/
def handle_request (routing_oracle : String → String)
    (g_oracle : String → OffensiveOutput)
    (ctx : UserContext) (query : String) : Outcome :=
  let decision := classify (routing_oracle query)
  let dres := dispatch decision ctx
  let verdict := NoOffensiveLanguageGuardrail g_oracle ctx dres.response.text
  if verdict.tripwire_triggered then Outcome.Blocked
  else Outcome.Released dres.response.text

/-- Possible terminations of the runtime call made by main: a final output,
a raised tripwire exception, or an oracle failure raised as some other
exception. -/
inductive RunResult where
  | ok (text : String)
  | tripwire
  | oracle_failure (msg : String)
  deriving DecidableEq

/-- What the caller of main observes. -/
inductive MainObservation where
  | printed_output (text : String)
  | printed_tripwire_message
  | uncaught_exception (msg : String)
  deriving DecidableEq

/-- The try/except structure of main, translated from the source: only the
tripwire exception is caught and replaced by a fixed message; any other
exception, such as an oracle failure, escapes uncaught. -/
def main_observe : RunResult → MainObservation
  | RunResult.ok t => MainObservation.printed_output t
  | RunResult.tripwire => MainObservation.printed_tripwire_message
  | RunResult.oracle_failure m => MainObservation.uncaught_exception m

/-- Interpretation of an observation as a typed outcome, when one exists: an
uncaught exception is not a typed outcome. -/
def typed_outcome : MainObservation → Option Outcome
  | MainObservation.printed_output t => some (Outcome.Released t)
  | MainObservation.printed_tripwire_message => some Outcome.Blocked
  | MainObservation.uncaught_exception _ => none

/-- One guardrail validation within a sequence of oracle calls indexed by
call number, so that repeated validation of the same text is expressible. -/
def validate_at (oracle : Nat → String → OffensiveOutput)
    (ctx : UserContext) (i : Nat) (text : String) : GuardrailFunctionOutput :=
  NoOffensiveLanguageGuardrail (oracle i) ctx text

/-- A word occurring in the right part of an appended list occurs in the
whole list. -/
theorem occursIn_append_right (w pre rest : List Char)
    (h : occursIn w rest = true) : occursIn w (pre ++ rest) = true := by
  induction pre with
  | nil => simpa using h
  | cons c t ih =>
      simp only [List.cons_append, occursIn, Bool.or_eq_true]
      exact Or.inr ih

/-- A list is a prefix of itself followed by anything. -/
theorem isPrefixOf_append_self (w r : List Char) :
    w.isPrefixOf (w ++ r) = true := by
  induction w with
  | nil => simp [List.isPrefixOf]
  | cons c t ih => simp [List.isPrefixOf, ih]

/-- The empty word occurs in every list. -/
theorem occursIn_nil (l : List Char) : occursIn [] l = true := by
  cases l with
  | nil => rfl
  | cons c t => simp [occursIn, List.isPrefixOf]

/-- A word occurs in itself followed by anything. -/
theorem occursIn_self_append (w r : List Char) : occursIn w (w ++ r) = true := by
  cases w with
  | nil => exact occursIn_nil r
  | cons c t =>
      simp only [List.cons_append, occursIn, Bool.or_eq_true]
      exact Or.inl (isPrefixOf_append_self (c :: t) r)

/-- A word contained in the right part of an appended string is contained in
the whole string. -/
theorem containsWord_append_right (a b w : String)
    (h : containsWord b w = true) : containsWord (a ++ b) w = true := by
  have h2 : occursIn w.toList b.toList = true := h
  show occursIn w.toList (a ++ b).toList = true
  have h3 : (a ++ b).toList = a.toList ++ b.toList := String.data_append a b
  rw [h3]
  exact occursIn_append_right _ _ _ h2

/-- The subject name is contained in the refund artifact for every context. -/
theorem refund_contains_name (ctx : UserContext) :
    containsWord (refund ctx) ctx.name = true := by
  show occursIn ctx.name.toList (("Hello " ++ ctx.name) ++ refund_rest).toList = true
  have h3 : (("Hello " ++ ctx.name) ++ refund_rest).toList =
      ("Hello " ++ ctx.name).toList ++ refund_rest.toList :=
    String.data_append _ _
  have h4 : ("Hello " ++ ctx.name).toList = "Hello ".toList ++ ctx.name.toList :=
    String.data_append _ _
  rw [h3, h4, List.append_assoc]
  exact occursIn_append_right _ _ _ (occursIn_self_append _ _)

/-- The word refund is contained in the refund artifact for every context. -/
theorem refund_contains_refund (ctx : UserContext) :
    containsWord (refund ctx) "refund" = true := by
  show containsWord (("Hello " ++ ctx.name) ++ refund_rest) "refund" = true
  exact containsWord_append_right _ _ _ (by decide)

/-- The refund timeline phrase is contained in the refund artifact for every
context. -/
theorem refund_contains_timeline (ctx : UserContext) :
    containsWord (refund ctx) "3-5 business days" = true := by
  show containsWord (("Hello " ++ ctx.name) ++ refund_rest) "3-5 business days" = true
  exact containsWord_append_right _ _ _ (by decide)

/-- Two strings differing at the head character differ. -/
theorem string_ne_of_head (s t : String)
    (h : s.data.head? ≠ t.data.head?) : s ≠ t := by
  intro he
  exact h (by rw [he])

/-- Claim C1: for every context whose premium flag is false, the refund
capability is disabled, the billing handler returns the fallback response
instead of invoking it, and the returned text is never the refund artifact. -/
theorem C1_non_premium_billing_never_refund (ctx : UserContext)
    (h : ctx.is_premium_user = false) :
    refund_cap.is_enabled ctx = false ∧
    billing_agent.respond ctx =
      ⟨CandidateSource.handlerFallback, capability_unavailable_fallback⟩ ∧
    (billing_agent.respond ctx).text ≠ refund ctx := by
  have he : refund_cap.is_enabled ctx = false := h
  have hr : billing_agent.respond ctx =
      ⟨CandidateSource.handlerFallback, capability_unavailable_fallback⟩ := by
    simp [Handler.respond, billing_agent, List.find?, he]
  refine ⟨he, hr, ?_⟩
  rw [hr]
  apply string_ne_of_head
  rw [show capability_unavailable_fallback.data.head? = some 'W' from rfl,
      show (refund ctx).data.head? = some 'H' from rfl]
  decide

/-- Witness for claim C1 at a concrete non-premium context. -/
theorem C1_witness :
    refund_cap.is_enabled ⟨"Bob", false, "billing"⟩ = false ∧
    billing_agent.respond ⟨"Bob", false, "billing"⟩ =
      ⟨CandidateSource.handlerFallback, capability_unavailable_fallback⟩ ∧
    (billing_agent.respond ⟨"Bob", false, "billing"⟩).text ≠
      refund ⟨"Bob", false, "billing"⟩ :=
  C1_non_premium_billing_never_refund ⟨"Bob", false, "billing"⟩ rfl

/-- Claim C2: whenever the guardrail oracle verdict on the candidate text
flags offensive content, the request outcome is the distinct Blocked outcome,
which carries no text, so no part of the candidate is ever released. -/
theorem C2_tripwire_blocks (routing_oracle : String → String)
    (g_oracle : String → OffensiveOutput) (ctx : UserContext) (query : String)
    (h : (g_oracle (dispatch (classify (routing_oracle query))
        ctx).response.text).contains_offensive = true) :
    handle_request routing_oracle g_oracle ctx query = Outcome.Blocked := by
  simp [handle_request, NoOffensiveLanguageGuardrail, h]

/-- Witness for claim C2: a candidate containing a denylisted term is
blocked under the instructed guardrail oracle. -/
theorem C2_witness :
    handle_request (fun _ => "general") guardrail_oracle
      ⟨"useless Bob", false, "general"⟩ "tell me about your services" =
      Outcome.Blocked :=
  C2_tripwire_blocks (fun _ => "general") guardrail_oracle
    ⟨"useless Bob", false, "general"⟩ "tell me about your services" (by decide)

/-- Claim C3: any classification label outside the three handler categories
maps to out of scope, and dispatching it yields exactly the fixed literal
with no handler invoked. -/
theorem C3_out_of_scope_total (label : String) (ctx : UserContext)
    (h1 : label ≠ "billing") (h2 : label ≠ "technical") (h3 : label ≠ "general") :
    classify label = Category.out_of_scope ∧
    dispatch (classify label) ctx =
      ⟨none, ⟨CandidateSource.outOfScopeLiteral, "This query is out of scope."⟩⟩ := by
  have hc : classify label = Category.out_of_scope := by
    simp [classify, h1, h2, h3]
  refine ⟨hc, ?_⟩
  rw [hc]
  rfl

/-- Witness for claim C3 at a concrete unrelated label. -/
theorem C3_witness :
    classify "weather" = Category.out_of_scope ∧
    dispatch (classify "weather") ⟨"Bob", false, "general"⟩ =
      ⟨none, ⟨CandidateSource.outOfScopeLiteral, "This query is out of scope."⟩⟩ :=
  C3_out_of_scope_total "weather" ⟨"Bob", false, "general"⟩
    (by decide) (by decide) (by decide)

/-- Claim C4: the guardrail verdict is a function of the candidate text
alone; two runs with the same text and different contexts produce the same
verdict, since the forwarded context never enters the oracle prompt. -/
theorem C4_guardrail_context_independent (oracle : String → OffensiveOutput)
    (ctx1 ctx2 : UserContext) (input : String) :
    NoOffensiveLanguageGuardrail oracle ctx1 input =
      NoOffensiveLanguageGuardrail oracle ctx2 input := rfl

/-- Claim C5: for every context whose issue type is not technical, the
restart capability is disabled, the technical handler returns the fallback
response, and the returned text is never the restart artifact. -/
theorem C5_non_technical_never_restart (ctx : UserContext)
    (h : ctx.issue_type ≠ "technical") :
    restart_service_cap.is_enabled ctx = false ∧
    technical_agent.respond ctx =
      ⟨CandidateSource.handlerFallback, capability_unavailable_fallback⟩ ∧
    (technical_agent.respond ctx).text ≠ restart_service ctx := by
  have he : restart_service_cap.is_enabled ctx = false :=
    beq_eq_false_iff_ne.mpr h
  have hr : technical_agent.respond ctx =
      ⟨CandidateSource.handlerFallback, capability_unavailable_fallback⟩ := by
    simp [Handler.respond, technical_agent, List.find?, he]
  refine ⟨he, hr, ?_⟩
  rw [hr]
  apply string_ne_of_head
  rw [show capability_unavailable_fallback.data.head? = some 'W' from rfl,
      show (restart_service ctx).data.head? = some 'H' from rfl]
  decide

/-- Witness for claim C5 at a concrete context with a billing issue type. -/
theorem C5_witness :
    restart_service_cap.is_enabled ⟨"Bob", true, "billing"⟩ = false ∧
    technical_agent.respond ⟨"Bob", true, "billing"⟩ =
      ⟨CandidateSource.handlerFallback, capability_unavailable_fallback⟩ ∧
    (technical_agent.respond ⟨"Bob", true, "billing"⟩).text ≠
      restart_service ⟨"Bob", true, "billing"⟩ :=
  C5_non_technical_never_restart ⟨"Bob", true, "billing"⟩ (by decide)

/-- Claim C6: when the billing handler has no enabled capability, it returns
the deterministic fallback, dispatch still names the billing handler rather
than rerouting, and the outcome is Released with the fallback text, not
Blocked, provided the guardrail oracle passes the fallback. -/
theorem C6_no_enabled_capability_fallback (routing_oracle : String → String)
    (g_oracle : String → OffensiveOutput) (ctx : UserContext) (query : String)
    (hprem : ctx.is_premium_user = false)
    (hroute : routing_oracle query = "billing")
    (hclean : (g_oracle capability_unavailable_fallback).contains_offensive = false) :
    billing_agent.respond ctx =
      ⟨CandidateSource.handlerFallback, capability_unavailable_fallback⟩ ∧
    (dispatch (classify (routing_oracle query)) ctx).handlerInvoked =
      some "BillingAgent" ∧
    handle_request routing_oracle g_oracle ctx query =
      Outcome.Released capability_unavailable_fallback := by
  have he : refund_cap.is_enabled ctx = false := hprem
  have hr : billing_agent.respond ctx =
      ⟨CandidateSource.handlerFallback, capability_unavailable_fallback⟩ := by
    simp [Handler.respond, billing_agent, List.find?, he]
  have hcls : classify (routing_oracle query) = Category.billing := by
    rw [hroute]
    rfl
  refine ⟨hr, ?_, ?_⟩
  · rw [hcls]
    rfl
  · simp [handle_request, hcls, dispatch, hr, NoOffensiveLanguageGuardrail, hclean]

/-- Witness for claim C6 at a concrete non-premium billing request. -/
theorem C6_witness :
    billing_agent.respond ⟨"Bob", false, "billing"⟩ =
      ⟨CandidateSource.handlerFallback, capability_unavailable_fallback⟩ ∧
    (dispatch (classify ((fun _ => "billing") "I want a refund"))
      ⟨"Bob", false, "billing"⟩).handlerInvoked = some "BillingAgent" ∧
    handle_request (fun _ => "billing") guardrail_oracle
      ⟨"Bob", false, "billing"⟩ "I want a refund" =
      Outcome.Released capability_unavailable_fallback :=
  C6_no_enabled_capability_fallback (fun _ => "billing") guardrail_oracle
    ⟨"Bob", false, "billing"⟩ "I want a refund" rfl rfl (by decide)

/-- Counterexample to claim C7 as stated: a premium billing context whose
subject name contains a denylisted term yields Blocked under the instructed
guardrail oracle, not Released with the refund artifact. -/
theorem C7_counterexample :
    handle_request (fun _ => "billing") guardrail_oracle
      ⟨"idiot", true, "billing"⟩ "I want a refund" = Outcome.Blocked ∧
    handle_request (fun _ => "billing") guardrail_oracle
      ⟨"idiot", true, "billing"⟩ "I want a refund" ≠
      Outcome.Released (refund ⟨"idiot", true, "billing"⟩) := by
  constructor
  · decide
  · decide

/-- Claim C7 as amended: for every premium context routed to billing whose
refund artifact passes the guardrail oracle, the billing handler is the one
invoked, it returns the refund artifact, the outcome is Released with that
artifact, and the artifact templates the subject name and contains the
refund and timeline phrases. -/
theorem C7_amended_premium_refund_released (routing_oracle : String → String)
    (g_oracle : String → OffensiveOutput) (ctx : UserContext) (query : String)
    (hprem : ctx.is_premium_user = true)
    (hroute : routing_oracle query = "billing")
    (hclean : (g_oracle (refund ctx)).contains_offensive = false) :
    (dispatch (classify (routing_oracle query)) ctx).handlerInvoked =
      some "BillingAgent" ∧
    billing_agent.respond ctx =
      ⟨CandidateSource.fromCapability "refund", refund ctx⟩ ∧
    handle_request routing_oracle g_oracle ctx query =
      Outcome.Released (refund ctx) ∧
    containsWord (refund ctx) ctx.name = true ∧
    containsWord (refund ctx) "refund" = true ∧
    containsWord (refund ctx) "3-5 business days" = true := by
  have he : refund_cap.is_enabled ctx = true := hprem
  have hr : billing_agent.respond ctx =
      ⟨CandidateSource.fromCapability "refund", refund ctx⟩ := by
    simp [Handler.respond, billing_agent, List.find?, he]
    exact ⟨rfl, rfl⟩
  have hcls : classify (routing_oracle query) = Category.billing := by
    rw [hroute]
    rfl
  refine ⟨?_, hr, ?_, refund_contains_name ctx, refund_contains_refund ctx,
    refund_contains_timeline ctx⟩
  · rw [hcls]
    rfl
  · simp [handle_request, hcls, dispatch, hr, NoOffensiveLanguageGuardrail, hclean]

/-- Witness for the amended claim C7 at a concrete premium billing context. -/
theorem C7_witness :
    (dispatch (classify ((fun _ => "billing") "I want a refund"))
      ⟨"Alice", true, "billing"⟩).handlerInvoked = some "BillingAgent" ∧
    billing_agent.respond ⟨"Alice", true, "billing"⟩ =
      ⟨CandidateSource.fromCapability "refund", refund ⟨"Alice", true, "billing"⟩⟩ ∧
    handle_request (fun _ => "billing") guardrail_oracle
      ⟨"Alice", true, "billing"⟩ "I want a refund" =
      Outcome.Released (refund ⟨"Alice", true, "billing"⟩) ∧
    containsWord (refund ⟨"Alice", true, "billing"⟩) "Alice" = true ∧
    containsWord (refund ⟨"Alice", true, "billing"⟩) "refund" = true ∧
    containsWord (refund ⟨"Alice", true, "billing"⟩) "3-5 business days" = true :=
  C7_amended_premium_refund_released (fun _ => "billing") guardrail_oracle
    ⟨"Alice", true, "billing"⟩ "I want a refund" rfl rfl (by decide)

/-- Counterexample to claim C8 as stated: an oracle failure is not caught by
main, so it escapes as a raw exception and yields no typed outcome at all,
rather than the typed Failed outcome the claim requires. -/
theorem C8_counterexample :
    main_observe (RunResult.oracle_failure "oracle unreachable") =
      MainObservation.uncaught_exception "oracle unreachable" ∧
    typed_outcome (main_observe (RunResult.oracle_failure "oracle unreachable")) =
      none :=
  ⟨rfl, rfl⟩

/-- Claim C8 as amended: a completed run is observed as exactly the typed
Released outcome with its text, a tripwire as exactly the typed Blocked
outcome, and an oracle failure escapes main as an uncaught exception with no
typed outcome; a typed Failed outcome is never produced. -/
theorem C8_amended_outcomes (r : RunResult) :
    (∃ t, r = RunResult.ok t ∧
      typed_outcome (main_observe r) = some (Outcome.Released t)) ∨
    (r = RunResult.tripwire ∧
      typed_outcome (main_observe r) = some Outcome.Blocked) ∨
    (∃ m, r = RunResult.oracle_failure m ∧
      typed_outcome (main_observe r) = none) := by
  cases r <;> simp [main_observe, typed_outcome]

/-- Claim C9: under a deterministic guardrail oracle, validating the same
candidate text at two different call positions yields the same verdict. -/
theorem C9_guardrail_idempotent (oracle : Nat → String → OffensiveOutput)
    (ctx : UserContext) (text : String)
    (hdet : ∀ i j t, oracle i t = oracle j t) (i j : Nat) :
    validate_at oracle ctx i text = validate_at oracle ctx j text := by
  unfold validate_at NoOffensiveLanguageGuardrail
  rw [hdet i j text]

/-- Witness for claim C9 with the instructed deterministic oracle stub. -/
theorem C9_witness :
    validate_at (fun _ t => guardrail_oracle t) ⟨"Bob", false, "general"⟩
      0 "hello there" =
    validate_at (fun _ t => guardrail_oracle t) ⟨"Bob", false, "general"⟩
      1 "hello there" :=
  C9_guardrail_idempotent (fun _ t => guardrail_oracle t)
    ⟨"Bob", false, "general"⟩ "hello there" (fun _ _ _ => rfl) 0 1

/-- Claim C10: the general capability carries no enablement predicate and is
enabled for every context, so the general handler always returns its
artifact and the fallback branch is unreachable for it. -/
theorem C10_general_always_enabled (ctx : UserContext) :
    general_info_cap.is_enabled ctx = true ∧
    general_agent.respond ctx =
      ⟨CandidateSource.fromCapability "general_info", general_info ctx⟩ ∧
    (general_agent.respond ctx).source ≠ CandidateSource.handlerFallback := by
  have hr : general_agent.respond ctx =
      ⟨CandidateSource.fromCapability "general_info", general_info ctx⟩ := rfl
  refine ⟨rfl, hr, ?_⟩
  rw [hr]
  simp

end SupportAgent
